import Mathlib

/-!
Shallow embedding of `alpycaclient.py` (AlpycaClient): a client library that
exposes ASCOM Alpaca device-control servers as local objects.  Pure request
construction, response decoding and error classification are translated into
executable Lean functions; the network itself is a parameter
(`server : HttpRequest → Response`), and raised Python exceptions become the
`Except` error channel.
-/

/-- Decoded JSON payload values.  The client passes `Value` payloads through
untyped; floating-point and array payloads travel the same opaque path, so
these constructors cover every property proved here. -/
inductive JValue where
  | jnull
  | jbool (b : Bool)
  | jint (n : Int)
  | jstr (s : String)
  deriving Repr, DecidableEq

/-- The decoded JSON body of an Alpaca response: `response.json()` in the
source.  Every Alpaca body carries `ErrorNumber` and `ErrorMessage`; read
responses additionally carry `Value`. -/
structure JBody where
  ErrorNumber : Int
  ErrorMessage : String
  Value : JValue
  deriving Repr, DecidableEq

/-- An HTTP response as the `requests` library presents it to this client:
`status_code`, the raw body text (`response.text`), and the decoded JSON body
(`response.json()`; `none` when the body is not valid JSON, in which case
`response.json()` raises). -/
structure Response where
  status_code : Nat
  text : String
  jbody : Option JBody
  deriving Repr, DecidableEq

/-- HTTP request methods used by the client. -/
inductive HttpMethod where
  | GET
  | PUT
  deriving Repr, DecidableEq

/-- An outgoing HTTP request as handed to the `requests` library.  `query` is
what the `params=` keyword would URL-encode into the query string; `body` is
what the `data=` keyword form-encodes into the request body.  Parameter
values are the primitive JSON values the source passes. -/
structure HttpRequest where
  method : HttpMethod
  url : String
  query : List (String × JValue)
  body : List (String × JValue)
  deriving Repr, DecidableEq

/-- `requests.get(url, data=data)`: the `data=` keyword form-encodes the map
into the request body; the URL query string is left empty (only `params=`
would populate it). -/
def requestsGet (url : String) (data : List (String × JValue)) : HttpRequest :=
  { method := .GET, url := url, query := [], body := data }

/-- `requests.put(url, data=data)`: the map is form-encoded into the request
body; the URL query string is left empty. -/
def requestsPut (url : String) (data : List (String × JValue)) : HttpRequest :=
  { method := .PUT, url := url, query := [], body := data }

/-- The Python exceptions this client can raise.  `ErrorMessage` and
`NumericError` are the two classes defined at the bottom of the source file;
`JSONDecodeError` is what `response.json()` raises on a non-JSON body;
`TypeError` is raised by the `UTCDate` setter on an unsupported input shape. -/
inductive PyError where
  | ErrorMessage (Value : String)
  | NumericError (ErrorNumber : Int) (ErrorMessage : String)
  | JSONDecodeError
  | TypeError
  deriving Repr, DecidableEq

/-- The `message` attribute each exception class stores in `__init__` and
returns from `__str__`.  `ErrorMessage` stores the raw value verbatim;
`NumericError` stores `"Error %d: %s" % (ErrorNumber, ErrorMessage)`. -/
def PyError.message : PyError → String
  | .ErrorMessage v => v
  | .NumericError n m => "Error " ++ toString n ++ ": " ++ m
  | .JSONDecodeError => "JSONDecodeError"
  | .TypeError => "TypeError"

/-- `response.json()`: the decoded body, or a decode failure when the body is
not valid JSON. -/
def responseJson (response : Response) : Except PyError JBody :=
  match response.jbody with
  | some j => .ok j
  | none => .error .JSONDecodeError

/-- `DEFAULT_API_VERSION = 1`. -/
def DEFAULT_API_VERSION : Nat := 1

/-- The state of a `Device` object: the fields `__init__` assigns to `self`. -/
structure Device where
  address : String
  device_type : String
  device_number : Nat
  api_version : Nat
  base_url : String
  deriving Repr, DecidableEq

/-- `Device.__init__`: stores the identity fields and computes
`self.base_url = "%s://%s/api/v%d/%s/%d" % (protocall, address, api_version,
device_type, device_number)` once at construction time. -/
def Device.init (address device_type : String) (device_number : Nat)
    (protocall : String) (api_version : Nat) : Device :=
  { address := address
    device_type := device_type
    device_number := device_number
    api_version := api_version
    base_url := protocall ++ "://" ++ address ++ "/api/v" ++ toString api_version
      ++ "/" ++ device_type ++ "/" ++ toString device_number }

/-- `Device.__check_error`: statuses 400 and 500 raise `ErrorMessage` with the
raw body text; status 200 decodes the JSON body and raises `NumericError` with
the body's code and message when `ErrorNumber != 0`; any other status falls
through without raising. -/
def Device.checkError (response : Response) : Except PyError Unit :=
  if response.status_code = 400 ∨ response.status_code = 500 then
    .error (.ErrorMessage response.text)
  else if response.status_code = 200 then
    match responseJson response with
    | .error e => .error e
    | .ok j =>
      if j.ErrorNumber ≠ 0 then .error (.NumericError j.ErrorNumber j.ErrorMessage)
      else .ok ()
  else .ok ()

/-- The observable outcome of one facade call: the network requests it issued,
the value returned or exception raised, and the client object's state after
the call (`self'`). -/
structure CallResult (α : Type) where
  requests : List HttpRequest
  result : Except PyError α
  self' : Device
  deriving Repr

/-- `Device._get`: issues `requests.get("%s/%s" % (self.base_url, attribute),
data=data)`, runs `__check_error` on the response, then returns
`response.json()["Value"]`.  The method body assigns nothing to `self`, so the
post-call state is the unchanged `self`. -/
def Device._get (self : Device) (attr : String)
    (data : List (String × JValue)) (server : HttpRequest → Response) :
    CallResult JValue :=
  let request := requestsGet (self.base_url ++ "/" ++ attr) data
  let response := server request
  { requests := [request]
    result := do
      Device.checkError response
      let j ← responseJson response
      pure j.Value
    self' := self }

/-- `Device._put`: issues `requests.put("%s/%s" % (self.base_url, attribute),
data=data)`, runs `__check_error` on the response, then returns the full
decoded body `response.json()`.  No assignment to `self`. -/
def Device._put (self : Device) (attr : String)
    (data : List (String × JValue)) (server : HttpRequest → Response) :
    CallResult JBody :=
  let request := requestsPut (self.base_url ++ "/" ++ attr) data
  let response := server request
  { requests := [request]
    result := do
      Device.checkError response
      responseJson response
    self' := self }

/-- `Device.Description` property: `return self._get("name")`. -/
def Device.Description (self : Device) (server : HttpRequest → Response) :
    CallResult JValue :=
  Device._get self "name" [] server

/-- `Device.Name` property: `return self._get("name")`. -/
def Device.Name (self : Device) (server : HttpRequest → Response) :
    CallResult JValue :=
  Device._get self "name" [] server

/-- `Switch.GetSwitch`: `return self._get("getswitch", Id=Id)` — a read that
carries a parameter map. -/
def Switch.GetSwitch (self : Device) (Id : Int)
    (server : HttpRequest → Response) : CallResult JValue :=
  Device._get self "getswitch" [("Id", .jint Id)] server

/-- A Python `datetime.datetime` value (naive, as the client uses it). -/
structure Datetime where
  year : Nat
  month : Nat
  day : Nat
  hour : Nat
  minute : Nat
  second : Nat
  microsecond : Nat
  deriving Repr, DecidableEq

/-- Decimal rendering of `n` left-padded with zeros to width `w`, as the
fixed-width fields of `datetime.isoformat` produce. -/
def padZeros (w : Nat) (n : Nat) : String :=
  let s := toString n
  String.mk (List.replicate (w - s.length) '0') ++ s

/-- `datetime.isoformat()`: `YYYY-MM-DDTHH:MM:SS`, with `.ffffff` appended
only when the microsecond field is non-zero. -/
def Datetime.isoformat (d : Datetime) : String :=
  padZeros 4 d.year ++ "-" ++ padZeros 2 d.month ++ "-" ++ padZeros 2 d.day
    ++ "T" ++ padZeros 2 d.hour ++ ":" ++ padZeros 2 d.minute ++ ":"
    ++ padZeros 2 d.second
    ++ (if d.microsecond ≠ 0 then "." ++ padZeros 6 d.microsecond else "")

/-- The runtime shape of the argument handed to the `UTCDate` setter: exactly
a `str`, exactly a `datetime`, or a value of any other type (the setter tests
`type(UTCDate) is str` / `is datetime`). -/
inductive UTCDateArg where
  | str (s : String)
  | dt (d : Datetime)
  | other
  deriving Repr, DecidableEq

/-- The `Telescope.UTCDate` setter: a `str` is sent unchanged, a `datetime` is
sent as its `isoformat()` string, and any other shape raises `TypeError`
before `self._put` runs, so no network request is issued. -/
def Telescope.setUTCDate (self : Device) (UTCDate : UTCDateArg)
    (server : HttpRequest → Response) : CallResult JBody :=
  match UTCDate with
  | .str s => Device._put self "utcdate" [("UTCDate", .jstr s)] server
  | .dt d => Device._put self "utcdate" [("UTCDate", .jstr d.isoformat)] server
  | .other => { requests := [], result := .error .TypeError, self' := self }

/-- The `globals()[...]` lookup `CreateClient` performs, restricted to names
that denote a two-argument device constructor.  The module's top-level classes
are `Switch`, `SafetyMonitor`, `Dome`, `Camera`, `FilterWheel`, `Telescope`,
`Rotator` and `Focuser` (exact capitalized spellings); each constructor passes
its fixed lower-case `device_type` plus the defaults `protocall="http"` and
`api_version=DEFAULT_API_VERSION` to `Device.__init__`.  Any other name fails
(`KeyError` for an absent name; the remaining globals such as `Device` or the
exception classes reject a two-argument call with `TypeError`). -/
def classConstructor : String → Option (String → Nat → Device)
  | "Switch" => some fun a n => Device.init a "switch" n "http" DEFAULT_API_VERSION
  | "SafetyMonitor" => some fun a n => Device.init a "safetymonitor" n "http" DEFAULT_API_VERSION
  | "Dome" => some fun a n => Device.init a "dome" n "http" DEFAULT_API_VERSION
  | "Camera" => some fun a n => Device.init a "camera" n "http" DEFAULT_API_VERSION
  | "FilterWheel" => some fun a n => Device.init a "filterwheel" n "http" DEFAULT_API_VERSION
  | "Telescope" => some fun a n => Device.init a "telescope" n "http" DEFAULT_API_VERSION
  | "Rotator" => some fun a n => Device.init a "rotator" n "http" DEFAULT_API_VERSION
  | "Focuser" => some fun a n => Device.init a "focuser" n "http" DEFAULT_API_VERSION
  | _ => none

/-- Helper for `pySplit`: walks the character list, cutting at each
separator. -/
def pySplitAux (sep : Char) : List Char → List Char → List String
  | [], acc => [String.mk acc.reverse]
  | c :: cs, acc =>
    if c = sep then String.mk acc.reverse :: pySplitAux sep cs []
    else pySplitAux sep cs (c :: acc)

/-- Python's `str.split(sep)` with a one-character separator: splits at every
occurrence and keeps empty components. -/
def pySplit (s : String) (sep : Char) : List String :=
  pySplitAux sep s.data []

/-- Python's `int(...)` on the non-negative decimal literals device numbers
use: `none` models the `ValueError` a non-numeric component raises. -/
def pyInt (s : String) : Option Nat :=
  if s.data.isEmpty then none
  else
    s.data.foldl
      (fun acc c =>
        match acc with
        | some a => if c.isDigit then some (a * 10 + (c.toNat - 48)) else none
        | none => none)
      (some 0)

/-- `CreateClient(name)`: splits the descriptor on `/`, converts the first
three components with `(str, str, int)` (`zip` drops any extra components; a
descriptor with fewer than three components fails the constructor call), and
returns `globals()[devname[0]](*devname[1:])`.  A failed `int` conversion, an
unrecognized name or a short descriptor all raise, modelled as `none`. -/
def CreateClient (name : String) : Option Device :=
  match pySplit name '/' with
  | cat :: addr :: numStr :: _ =>
    match classConstructor cat, pyInt numStr with
    | some ctor, some n => some (ctor addr n)
    | _, _ => none
  | _ => none


/-- C1: for every device constructed with address, category, instance number,
scheme and protocol version, the base address computed at construction time is
exactly `<scheme>://<address>/api/v<version>/<category>/<instanceNumber>`. -/
theorem C1_base_address (address device_type : String) (device_number : Nat)
    (protocall : String) (api_version : Nat) :
    (Device.init address device_type device_number protocall api_version).base_url
      = protocall ++ "://" ++ address ++ "/api/v" ++ toString api_version
        ++ "/" ++ device_type ++ "/" ++ toString device_number := rfl

/-- C9: a read leaves the client state unchanged, so repeating the same read
against a server that answers identically yields the identical decoded
result — the client caches nothing between calls. -/
theorem C9_read_idempotent (self : Device) (a : String)
    (data : List (String × JValue)) (server : HttpRequest → Response) :
    (Device._get self a data server).self' = self
    ∧ (Device._get (Device._get self a data server).self' a data server).result
        = (Device._get self a data server).result :=
  ⟨rfl, rfl⟩

/-- C10: the `Description` property and the `Name` property are the same
operation: both read the wire attribute `name` (the request URL is
`<base>/name`, never `<base>/description`) and agree on every response. -/
theorem C10_description_eq_name (self : Device)
    (server : HttpRequest → Response) :
    Device.Description self server = Device.Name self server
    ∧ (Device.Description self server).requests
        = [requestsGet (self.base_url ++ "/" ++ "name") []] :=
  ⟨rfl, rfl⟩

/-- C7: the `UTCDate` setter sends a `str` argument unchanged, sends a
`datetime` argument as its ISO-8601 `isoformat()` string (the value
2024-01-01T00:00:00 is sent as the string "2024-01-01T00:00:00"), and for an
argument of any other shape raises `TypeError` locally, issuing no network
request. -/
theorem C7_utcdate_setter (self : Device) (server : HttpRequest → Response) :
    (∀ s, (Telescope.setUTCDate self (.str s) server).requests
        = [requestsPut (self.base_url ++ "/" ++ "utcdate") [("UTCDate", .jstr s)]])
    ∧ (∀ d, (Telescope.setUTCDate self (.dt d) server).requests
        = [requestsPut (self.base_url ++ "/" ++ "utcdate")
            [("UTCDate", .jstr d.isoformat)]])
    ∧ Datetime.isoformat ⟨2024, 1, 1, 0, 0, 0, 0⟩ = "2024-01-01T00:00:00"
    ∧ (Telescope.setUTCDate self .other server).result = .error .TypeError
    ∧ (Telescope.setUTCDate self .other server).requests = [] :=
  ⟨fun _ => rfl, fun _ => rfl, by decide, rfl, rfl⟩

/-- C8: evaluating a parameterized read (`Switch.GetSwitch` with `Id=0`) shows
the parameter map is form-encoded into the request body (`requests.get`'s
`data=` keyword) while the URL query string stays empty — the read does not
carry its parameters as query-style data. -/
theorem C8_read_params_sent_in_body :
    (Switch.GetSwitch (Device.init "127.0.0.1" "switch" 0 "http" 1) 0
        (fun _ => ⟨200, "", some ⟨0, "", .jbool true⟩⟩)).requests
      = [{ method := .GET, url := "http://127.0.0.1/api/v1/switch/0/getswitch",
           query := [], body := [("Id", .jint 0)] }]
    ∧ (Switch.GetSwitch (Device.init "127.0.0.1" "switch" 0 "http" 1) 0
        (fun _ => ⟨200, "", some ⟨0, "", .jbool true⟩⟩)).requests.all
        (fun r => r.query = []) = true := by
  constructor
  · decide
  · decide

/-- C2: when the server answers a read or a write with HTTP status 400 or
500, the call raises the message-only `ErrorMessage` failure whose stored
message is the raw response body text verbatim; the raised failure is never
the numeric kind, so no numeric code is attached. -/
theorem C2_transport_failure (self : Device) (a : String)
    (data : List (String × JValue)) (server : HttpRequest → Response)
    (resp_g resp_p : Response)
    (hge : server (requestsGet (self.base_url ++ "/" ++ a) data) = resp_g)
    (hpe : server (requestsPut (self.base_url ++ "/" ++ a) data) = resp_p)
    (hg : resp_g.status_code = 400 ∨ resp_g.status_code = 500)
    (hp : resp_p.status_code = 400 ∨ resp_p.status_code = 500) :
    (Device._get self a data server).result
        = .error (.ErrorMessage resp_g.text)
    ∧ (Device._put self a data server).result
        = .error (.ErrorMessage resp_p.text)
    ∧ (PyError.ErrorMessage resp_g.text).message = resp_g.text
    ∧ ∀ n m, PyError.ErrorMessage resp_g.text ≠ PyError.NumericError n m := by
  have hcg : Device.checkError resp_g = .error (.ErrorMessage resp_g.text) := by
    unfold Device.checkError; rw [if_pos hg]
  have hcp : Device.checkError resp_p = .error (.ErrorMessage resp_p.text) := by
    unfold Device.checkError; rw [if_pos hp]
  refine ⟨?_, ?_, rfl, fun n m h => by cases h⟩
  · show (Device.checkError (server (requestsGet (self.base_url ++ "/" ++ a) data))
        >>= fun _ => responseJson (server (requestsGet (self.base_url ++ "/" ++ a) data))
        >>= fun j => pure j.Value) = _
    rw [hge, hcg]; rfl
  · show (Device.checkError (server (requestsPut (self.base_url ++ "/" ++ a) data))
        >>= fun _ => responseJson (server (requestsPut (self.base_url ++ "/" ++ a) data)))
        = _
    rw [hpe, hcp]; rfl

/-- Witness for C2: a concrete server answering every request with status 400
and body "Bad parameter" makes both the read and the write raise
`ErrorMessage "Bad parameter"`. -/
theorem C2_transport_failure_witness :
    (Device._get (Device.init "127.0.0.1" "telescope" 0 "http" 1) "connected" []
        (fun _ => ⟨400, "Bad parameter", none⟩)).result
      = .error (.ErrorMessage "Bad parameter") :=
  (C2_transport_failure (Device.init "127.0.0.1" "telescope" 0 "http" 1)
    "connected" [] (fun _ => ⟨400, "Bad parameter", none⟩)
    ⟨400, "Bad parameter", none⟩ ⟨400, "Bad parameter", none⟩
    rfl rfl (Or.inl rfl) (Or.inl rfl)).1

/-- C3: when the server answers with status 200 and a JSON body whose
`ErrorNumber` is non-zero, the read or write raises `NumericError` carrying
exactly that code and exactly the paired `ErrorMessage` string from the
body. -/
theorem C3_protocol_failure (self : Device) (a : String)
    (data : List (String × JValue)) (server : HttpRequest → Response)
    (resp_g resp_p : Response) (j_g j_p : JBody)
    (hge : server (requestsGet (self.base_url ++ "/" ++ a) data) = resp_g)
    (hpe : server (requestsPut (self.base_url ++ "/" ++ a) data) = resp_p)
    (hgs : resp_g.status_code = 200) (hgj : resp_g.jbody = some j_g)
    (hgn : j_g.ErrorNumber ≠ 0)
    (hps : resp_p.status_code = 200) (hpj : resp_p.jbody = some j_p)
    (hpn : j_p.ErrorNumber ≠ 0) :
    (Device._get self a data server).result
        = .error (.NumericError j_g.ErrorNumber j_g.ErrorMessage)
    ∧ (Device._put self a data server).result
        = .error (.NumericError j_p.ErrorNumber j_p.ErrorMessage) := by
  have hcg : Device.checkError resp_g
      = .error (.NumericError j_g.ErrorNumber j_g.ErrorMessage) := by
    unfold Device.checkError
    rw [if_neg (by rw [hgs]; decide), if_pos hgs]
    simp [responseJson, hgj, hgn]
  have hcp : Device.checkError resp_p
      = .error (.NumericError j_p.ErrorNumber j_p.ErrorMessage) := by
    unfold Device.checkError
    rw [if_neg (by rw [hps]; decide), if_pos hps]
    simp [responseJson, hpj, hpn]
  constructor
  · show (Device.checkError (server (requestsGet (self.base_url ++ "/" ++ a) data))
        >>= fun _ => responseJson (server (requestsGet (self.base_url ++ "/" ++ a) data))
        >>= fun j => pure j.Value) = _
    rw [hge, hcg]; rfl
  · show (Device.checkError (server (requestsPut (self.base_url ++ "/" ++ a) data))
        >>= fun _ => responseJson (server (requestsPut (self.base_url ++ "/" ++ a) data)))
        = _
    rw [hpe, hcp]; rfl

/-- Witness for C3: a server answering status 200 with body
`{"ErrorNumber": 1025, "ErrorMessage": "Invalid switch id"}` makes the write
raise `NumericError 1025 "Invalid switch id"`. -/
theorem C3_protocol_failure_witness :
    (Device._put (Device.init "127.0.0.1" "switch" 0 "http" 1) "setswitch" []
        (fun _ => ⟨200, "", some ⟨1025, "Invalid switch id", .jnull⟩⟩)).result
      = .error (.NumericError 1025 "Invalid switch id") :=
  (C3_protocol_failure (Device.init "127.0.0.1" "switch" 0 "http" 1)
    "setswitch" [] (fun _ => ⟨200, "", some ⟨1025, "Invalid switch id", .jnull⟩⟩)
    ⟨200, "", some ⟨1025, "Invalid switch id", .jnull⟩⟩
    ⟨200, "", some ⟨1025, "Invalid switch id", .jnull⟩⟩
    ⟨1025, "Invalid switch id", .jnull⟩ ⟨1025, "Invalid switch id", .jnull⟩
    rfl rfl rfl rfl (by decide) rfl rfl (by decide)).2

/-- C4: when the server answers a read with status 200 and a JSON body whose
`ErrorNumber` is 0, the value returned to the caller is exactly the body's
`Value` field, unmodified. -/
theorem C4_read_returns_value (self : Device) (a : String)
    (data : List (String × JValue)) (server : HttpRequest → Response)
    (resp : Response) (j : JBody)
    (he : server (requestsGet (self.base_url ++ "/" ++ a) data) = resp)
    (hs : resp.status_code = 200) (hj : resp.jbody = some j)
    (hn : j.ErrorNumber = 0) :
    (Device._get self a data server).result = .ok j.Value := by
  have hc : Device.checkError resp = .ok () := by
    unfold Device.checkError
    rw [if_neg (by rw [hs]; decide), if_pos hs]
    simp [responseJson, hj, hn]
  show (Device.checkError (server (requestsGet (self.base_url ++ "/" ++ a) data))
      >>= fun _ => responseJson (server (requestsGet (self.base_url ++ "/" ++ a) data))
      >>= fun x => pure x.Value) = _
  rw [he, hc]
  show (responseJson resp >>= fun x => pure x.Value) = _
  rw [show responseJson resp = .ok j by simp [responseJson, hj]]
  rfl

/-- Witness for C4: a server answering the right-ascension read with
`{"ErrorNumber": 0, "ErrorMessage": "", "Value": "12.5"}` makes the read
return the `Value` payload unmodified. -/
theorem C4_read_returns_value_witness :
    (Device._get (Device.init "127.0.0.1" "telescope" 0 "http" 1)
        "rightascension" []
        (fun _ => ⟨200, "", some ⟨0, "", .jstr "12.5"⟩⟩)).result
      = .ok (.jstr "12.5") :=
  C4_read_returns_value (Device.init "127.0.0.1" "telescope" 0 "http" 1)
    "rightascension" [] (fun _ => ⟨200, "", some ⟨0, "", .jstr "12.5"⟩⟩)
    ⟨200, "", some ⟨0, "", .jstr "12.5"⟩⟩ ⟨0, "", .jstr "12.5"⟩
    rfl rfl rfl rfl

/-- C5: the error classification special-cases only statuses 400 and 500 for
the transport failure and status 200 for the protocol-error check; on any
other status `__check_error` raises nothing and the read and write proceed to
return the decoded body as if the call had succeeded. -/
theorem C5_other_status_is_success (self : Device) (a : String)
    (data : List (String × JValue)) (server : HttpRequest → Response)
    (resp_g resp_p : Response) (j_g j_p : JBody)
    (hge : server (requestsGet (self.base_url ++ "/" ++ a) data) = resp_g)
    (hpe : server (requestsPut (self.base_url ++ "/" ++ a) data) = resp_p)
    (hg4 : resp_g.status_code ≠ 400) (hg5 : resp_g.status_code ≠ 500)
    (hg2 : resp_g.status_code ≠ 200)
    (hp4 : resp_p.status_code ≠ 400) (hp5 : resp_p.status_code ≠ 500)
    (hp2 : resp_p.status_code ≠ 200)
    (hgj : resp_g.jbody = some j_g) (hpj : resp_p.jbody = some j_p) :
    Device.checkError resp_g = .ok ()
    ∧ Device.checkError resp_p = .ok ()
    ∧ (Device._get self a data server).result = .ok j_g.Value
    ∧ (Device._put self a data server).result = .ok j_p := by
  have hcg : Device.checkError resp_g = .ok () := by
    unfold Device.checkError
    rw [if_neg (by rintro (h | h) <;> [exact hg4 h; exact hg5 h]), if_neg hg2]
  have hcp : Device.checkError resp_p = .ok () := by
    unfold Device.checkError
    rw [if_neg (by rintro (h | h) <;> [exact hp4 h; exact hp5 h]), if_neg hp2]
  refine ⟨hcg, hcp, ?_, ?_⟩
  · show (Device.checkError (server (requestsGet (self.base_url ++ "/" ++ a) data))
        >>= fun _ => responseJson (server (requestsGet (self.base_url ++ "/" ++ a) data))
        >>= fun x => pure x.Value) = _
    rw [hge, hcg]
    show (responseJson resp_g >>= fun x => pure x.Value) = _
    rw [show responseJson resp_g = .ok j_g by simp [responseJson, hgj]]
    rfl
  · show (Device.checkError (server (requestsPut (self.base_url ++ "/" ++ a) data))
        >>= fun _ => responseJson (server (requestsPut (self.base_url ++ "/" ++ a) data)))
        = _
    rw [hpe, hcp]
    rw [show responseJson resp_p = .ok j_p by simp [responseJson, hpj]]
    rfl

/-- Witness for C5: a server answering with status 404 raises no failure; the
read returns the decoded `Value` and the write returns the decoded body. -/
theorem C5_other_status_is_success_witness :
    Device.checkError ⟨404, "not found", some ⟨7, "ignored", .jbool true⟩⟩
        = .ok ()
    ∧ (Device._get (Device.init "127.0.0.1" "dome" 0 "http" 1) "shutterstatus"
        [] (fun _ => ⟨404, "not found", some ⟨7, "ignored", .jbool true⟩⟩)).result
        = .ok (.jbool true) := by
  have h := C5_other_status_is_success (Device.init "127.0.0.1" "dome" 0 "http" 1)
    "shutterstatus" []
    (fun _ => ⟨404, "not found", some ⟨7, "ignored", .jbool true⟩⟩)
    ⟨404, "not found", some ⟨7, "ignored", .jbool true⟩⟩
    ⟨404, "not found", some ⟨7, "ignored", .jbool true⟩⟩
    ⟨7, "ignored", .jbool true⟩ ⟨7, "ignored", .jbool true⟩
    rfl rfl (by decide) (by decide) (by decide) (by decide) (by decide)
    (by decide) rfl rfl
  exact ⟨h.1, h.2.2.1⟩

/-- On a list without the separator, `pySplitAux` yields the single remaining
component. -/
theorem pySplitAux_no_sep (sep : Char) (l acc : List Char) (h : sep ∉ l) :
    pySplitAux sep l acc = [String.mk (acc.reverse ++ l)] := by
  induction l generalizing acc with
  | nil => simp [pySplitAux]
  | cons c cs ih =>
    have hc : ¬ c = sep := fun e => h (by simp [e])
    simp only [pySplitAux, if_neg hc]
    rw [ih _ (fun hm => h (List.mem_cons_of_mem _ hm))]
    simp

/-- `pySplitAux` cuts at the first separator occurrence. -/
theorem pySplitAux_sep (sep : Char) (l1 l2 acc : List Char) (h : sep ∉ l1) :
    pySplitAux sep (l1 ++ sep :: l2) acc
      = String.mk (acc.reverse ++ l1) :: pySplitAux sep l2 [] := by
  induction l1 generalizing acc with
  | nil => simp [pySplitAux]
  | cons c cs ih =>
    have hc : ¬ c = sep := fun e => h (by simp [e])
    simp only [List.cons_append, pySplitAux, if_neg hc, List.append_eq]
    rw [ih _ (fun hm => h (List.mem_cons_of_mem _ hm))]
    simp

/-- Splitting a three-component descriptor whose components contain no
separator recovers exactly the three components. -/
theorem pySplit_three (cat addr num : String)
    (hc : '/' ∉ cat.data) (ha : '/' ∉ addr.data) (hn : '/' ∉ num.data) :
    pySplit (cat ++ "/" ++ addr ++ "/" ++ num) '/' = [cat, addr, num] := by
  unfold pySplit
  have hdata : (cat ++ "/" ++ addr ++ "/" ++ num).data
      = cat.data ++ '/' :: (addr.data ++ '/' :: num.data) := by
    simp [String.data_append]
  rw [hdata, pySplitAux_sep _ _ _ _ hc, pySplitAux_sep _ _ _ _ ha,
    pySplitAux_no_sep _ _ _ hn]
  simp

/-- Every name `classConstructor` recognizes is one of the eight class
identifiers, none of which contains the descriptor separator. -/
theorem classConstructor_no_slash (cat : String) (ctor : String → Nat → Device)
    (h : classConstructor cat = some ctor) : '/' ∉ cat.data := by
  unfold classConstructor at h
  split at h <;> simp_all

/-- Counterexample to C6: the lower-case descriptor "telescope/10.0.0.5/0"
does not construct a facade — `globals()` holds the class under the
capitalized name `Telescope`, so the lookup of "telescope" raises
`KeyError`. -/
theorem C6_lowercase_descriptor_rejected :
    CreateClient "telescope/10.0.0.5/0" = none := by decide

/-- C6 (amended): the factory recognizes the capitalized class names; for any
recognized name and slash-free address and instance components it constructs
the corresponding facade, it fails whenever the first component is not a
recognized class name (the lower-case wire categories included), and
"Telescope/10.0.0.5/0" yields a telescope facade whose base address is
http://10.0.0.5/api/v1/telescope/0. -/
theorem C6_factory_amended :
    (∀ cat addr numStr ctor n, classConstructor cat = some ctor →
      '/' ∉ addr.data → '/' ∉ numStr.data → pyInt numStr = some n →
      CreateClient (cat ++ "/" ++ addr ++ "/" ++ numStr) = some (ctor addr n))
    ∧ (∀ name cat addr numStr rest,
      pySplit name '/' = cat :: addr :: numStr :: rest →
      classConstructor cat = none → CreateClient name = none)
    ∧ CreateClient "Telescope/10.0.0.5/0"
        = some (Device.init "10.0.0.5" "telescope" 0 "http" DEFAULT_API_VERSION)
    ∧ (Device.init "10.0.0.5" "telescope" 0 "http" DEFAULT_API_VERSION).base_url
        = "http://10.0.0.5/api/v1/telescope/0" := by
  refine ⟨?_, ?_, by decide, by decide⟩
  · intro cat addr numStr ctor n hctor haddr hnum hint
    unfold CreateClient
    rw [pySplit_three cat addr numStr
      (classConstructor_no_slash cat ctor hctor) haddr hnum]
    simp [hctor, hint]
  · intro name cat addr numStr rest hsplit hnone
    unfold CreateClient
    rw [hsplit]
    cases hpy : pyInt numStr <;> simp [hnone, hpy]

/-- Witness for C6 (amended): the descriptor "Switch/10.0.0.5/3" constructs
the switch facade for instance 3 with the default scheme and version. -/
theorem C6_factory_amended_witness :
    CreateClient "Switch/10.0.0.5/3"
      = some (Device.init "10.0.0.5" "switch" 3 "http" DEFAULT_API_VERSION) :=
  C6_factory_amended.1 "Switch" "10.0.0.5" "3"
    (fun a n => Device.init a "switch" n "http" DEFAULT_API_VERSION) 3
    rfl (by decide) (by decide) (by decide)
